import Mathlib

/-!
Verification of the Facebook Graph API client
(`facebook_action/modules/facebook_api.py`).

The Python module is a stateless REST client.  We shallowly embed it:

* JSON values (Python dicts / lists / scalars as they appear in webhook
  payloads and Graph API responses) become the inductive type `Json`.
* Python dictionary access is translated faithfully: `d[k]` raises on a
  missing key (modelled with `Except`), `d.get(k)` yields `None`
  (modelled with `Option`), and `a or b` uses Python truthiness.
* Every HTTP side effect is turned into an explicit oracle parameter:
  the transport outcome of `requests.request`, the response sequence of
  a pagination loop, the per-upload responses of a batch post, the
  result of a `HEAD` probe.  The functions under verification are the
  pure request-construction and response-interpretation logic of the
  source, which is exactly what the specification talks about.
-/

/-- JSON values as they occur in webhook payloads and Graph responses.
Numbers in these payloads are integers. -/
inductive Json where
  | null
  | bool (b : Bool)
  | int (n : Int)
  | str (s : String)
  | arr (xs : List Json)
  | obj (fields : List (String × Json))

/-- First-match lookup in an association list (Python dict literals in
this module never repeat a key, so first-match agrees with dict lookup). -/
def lookupField : List (String × Json) → String → Option Json
  | [], _ => none
  | (k, v) :: rest, key => if k = key then some v else lookupField rest key

/-- `d.get(k)`-style lookup: `none` when the key is absent or the value
is not a dict. -/
def Json.lookup : Json → String → Option Json
  | .obj fs, key => lookupField fs key
  | _, _ => none

/-- Python `k in d` membership test on a dict. -/
def Json.hasKey (j : Json) (key : String) : Bool :=
  (j.lookup key).isSome

/-- Python truthiness of a JSON value (`None`, `False`, `0`, `""`, `[]`,
`{}` are falsy). -/
def pythonTruthy : Json → Bool
  | .null => false
  | .bool b => b
  | .int n => n != 0
  | .str s => s != ""
  | .arr xs => !xs.isEmpty
  | .obj fs => !fs.isEmpty

/-- Python `d[k]` on a JSON value: `KeyError` when the key is absent,
`TypeError` when the value is not a dict.  The error string models
Python's `str(e)`. -/
def getItem (j : Json) (key : String) : Except String Json :=
  match j with
  | .obj fs =>
    match lookupField fs key with
    | some v => Except.ok v
    | none => Except.error ("KeyError: " ++ key)
  | _ => Except.error ("TypeError: value is not subscriptable by " ++ key)

/-- Python `xs[0]` on a JSON value: `IndexError` on an empty list,
`TypeError` on a non-list. -/
def index0 (j : Json) : Except String Json :=
  match j with
  | .arr (x :: _) => Except.ok x
  | .arr [] => Except.error "IndexError: list index out of range"
  | _ => Except.error "TypeError: value is not a list"

/-- Python `d.get(k)` where `d` must be a dict (`AttributeError`
otherwise), returning `None` (`Option.none`) when the key is absent. -/
def pyGet (j : Json) (key : String) : Except String (Option Json) :=
  match j with
  | .obj fs => Except.ok (lookupField fs key)
  | _ => Except.error "AttributeError: value has no attribute get"

/-- The configuration held by one `FacebookAPI` instance
(`FacebookAPI.__init__`). -/
structure FacebookAPI where
  api_url : String
  app_secret : String
  app_id : String
  page_id : String
  access_token : String
  verify_token : String
  fields : Option String
  timeout : Nat

/-- One HTTP request as handed to `send_rest_request`: method, endpoint,
query params, form data, headers and JSON body. -/
structure RestRequest where
  method : String
  endpoint : String
  params : List (String × Json) := []
  form : List (String × Json) := []
  headers : List (String × String) := []
  json_body : Option Json := none

namespace FacebookAPI

/-- URL construction at the top of `send_rest_request`: an endpoint that
is already absolute is used as-is, otherwise it is appended to the
configured base URL. -/
def buildUrl (cfg : FacebookAPI) (endpoint : String) : String :=
  if endpoint.startsWith "http://" || endpoint.startsWith "https://" then endpoint
  else cfg.api_url ++ endpoint

/-- The `requests.Response` attached to a `requests.RequestException`,
as far as `send_rest_request` inspects it: its Python truthiness
(`Response.__bool__` is `Response.ok`) and its parsed body (`none` when
the content is empty). -/
structure ErrResponse where
  ok : Bool
  body : Option Json

/-- Outcome of the `requests.request` call inside `send_rest_request`:
a 2xx response with an (optionally empty) JSON body, a
`requests.Timeout`, any other `requests.RequestException` (carrying
`str(e)` and `e.response`), or any other exception (carrying `str(e)`). -/
inductive RequestOutcome where
  | success (body : Option Json)
  | timeout
  | requestError (msg : String) (resp : Option ErrResponse)
  | unexpected (msg : String)

/-- `error_details` as computed in the `RequestException` handler:
`e.response.json() if e.response and e.response.content else None`. -/
def errorDetails : Option ErrResponse → Json
  | some r => if r.ok && r.body.isSome then (r.body.getD .null) else .null
  | none => .null

/-- `send_rest_request`: the transport oracle maps the built URL to the
outcome of the underlying HTTP call; the function converts every
outcome into a returned dict, never propagating an exception. -/
def send_rest_request (cfg : FacebookAPI) (endpoint : String)
    (transport : String → RequestOutcome) : Json :=
  match transport (cfg.buildUrl endpoint) with
  | .success (some body) => body
  | .success none => .obj []
  | .timeout =>
    .obj [("error", .str ("Timeout after " ++ toString cfg.timeout ++ " seconds"))]
  | .requestError msg resp => .obj [("error", .str msg), ("details", errorDetails resp)]
  | .unexpected msg => .obj [("error", .str msg)]

/-- The boolean guard of `parse_verification_request`:
`hub_verify_token == self.verify_token and hub_mode == "subscribe"`
(a non-string value never equals the configured string token). -/
def verificationOk (cfg : FacebookAPI) (request : Json) : Bool :=
  (match request.lookup "hub.verify_token" with
   | some (.str s) => s = cfg.verify_token
   | _ => false)
  && (match request.lookup "hub.mode" with
      | some (.str s) => s = "subscribe"
      | _ => false)

/-- `parse_verification_request`: echo `hub.challenge` (empty string
when absent) on a valid subscribe handshake, otherwise a 403 rejection.
The `except` clause of the source is unreachable here: the body only
performs `dict.get` calls, which do not raise. -/
def parse_verification_request (cfg : FacebookAPI) (request : Json) : Json :=
  if cfg.verificationOk request then (request.lookup "hub.challenge").getD (.str "")
  else .obj [("message", .str "Invalid token or mode"), ("code", .int 403)]

/-- The extraction body of `parse_inbound_message` (the code inside its
`try`); each Python `[...]` access that can raise is an `Except` step. -/
def parseInboundCore (request : Json) : Except String Json := do
  let entries ← getItem request "entry"
  let entry ← index0 entries
  let page_id ← getItem entry "id"
  let mut sender_id : Json := .str ""
  let mut message_type : Json := .str ""
  let mut message : Json := .str ""
  let mut sender_name : Json := .str ""
  let mut attachments : Json := .arr []
  let caption : Json := .str ""
  let parent_message_id : Json := .str ""
  if entry.hasKey "changes" then
    let changes ← getItem entry "changes"
    let change0 ← index0 changes
    let change ← getItem change0 "value"
    let fromVal ← getItem change "from"
    sender_id ← getItem fromVal "id"
    sender_name ← getItem fromVal "name"
    message_type ← getItem change "item"
    let m ← pyGet change "message"
    let mVal := m.getD .null
    if pythonTruthy mVal then
      message := mVal
    else
      let r ← pyGet change "reaction_type"
      message := r.getD .null
  else if entry.hasKey "messaging" then
    let messagingArr ← getItem entry "messaging"
    let messaging ← index0 messagingArr
    let sender ← getItem messaging "sender"
    sender_id ← getItem sender "id"
    message_type := .str "message"
    let msgObj ← getItem messaging "message"
    let t ← pyGet msgObj "text"
    message := t.getD .null
    let a ← pyGet msgObj "attachments"
    attachments := a.getD (.arr [])
  return .obj
    [ ("sender_name", sender_name)
    , ("sender_id", sender_id)
    , ("page_id", page_id)
    , ("message_type", message_type)
    , ("message", message)
    , ("attachments", attachments)
    , ("caption", caption)
    , ("data", request)
    , ("parent_message_id", parent_message_id) ]

/-- `parse_inbound_message`: the extraction body with its `except`
handler, which turns any raised error into `{"ok": False, "error": str(e)}`. -/
def parse_inbound_message (request : Json) : Json :=
  match parseInboundCore request with
  | .ok payload => payload
  | .error e => .obj [("ok", .bool false), ("error", .str e)]

/-- An optional Python string as a JSON value (`None` becomes `null`). -/
def jsonOfOptStr : Option String → Json
  | some s => .str s
  | none => .null

/-- `register_session`: the subscription request it hands to
`send_rest_request` (the only operation using the app-level credential). -/
def register_session (cfg : FacebookAPI) (webhook_url : String) : RestRequest :=
  { method := "POST"
    endpoint := cfg.app_id ++ "/subscriptions"
    params := [("access_token", .str (cfg.app_id ++ "|" ++ cfg.app_secret))]
    json_body := some (.obj
      [ ("object", .str "page")
      , ("callback_url", .str webhook_url)
      , ("fields", jsonOfOptStr cfg.fields)
      , ("verify_token", .str cfg.verify_token)
      , ("include_values", .str "true") ]) }

/-- `send_text_message`: the Messenger request it hands to
`send_rest_request`. -/
def send_text_message (cfg : FacebookAPI) (recipient_id message : String) : RestRequest :=
  { method := "POST"
    endpoint := cfg.page_id ++ "/messages"
    headers := [("Content-Type", "application/json")]
    params := [("access_token", .str cfg.access_token)]
    json_body := some (.obj
      [ ("recipient", .obj [("id", .str recipient_id)])
      , ("messaging_type", .str "RESPONSE")
      , ("message", .obj [("text", .str message)]) ]) }

/-- `send_media`: the Messenger attachment request it hands to
`send_rest_request`. -/
def send_media (cfg : FacebookAPI) (recipient_id media_url media_type : String) : RestRequest :=
  { method := "POST"
    endpoint := cfg.page_id ++ "/messages"
    headers := [("Content-Type", "application/json")]
    params := [("access_token", .str cfg.access_token)]
    json_body := some (.obj
      [ ("recipient", .obj [("id", .str recipient_id)])
      , ("messaging_type", .str "RESPONSE")
      , ("message", .obj
          [ ("attachment", .obj
              [ ("type", .str media_type)
              , ("payload", .obj [("url", .str media_url), ("is_reusable", .bool true)]) ]) ]) ]) }

/-- `get_user_info`: the request it hands to `send_rest_request`. -/
def get_user_info (cfg : FacebookAPI) (fieldList : String) : RestRequest :=
  { method := "GET"
    endpoint := "me"
    params := [("fields", .str fieldList), ("access_token", .str cfg.access_token)] }

/-- `get_page_details`: the request it hands to `send_rest_request`. -/
def get_page_details (cfg : FacebookAPI) (fieldList : String) : RestRequest :=
  { method := "GET"
    endpoint := cfg.page_id
    params := [("fields", .str fieldList), ("access_token", .str cfg.access_token)] }

/-- `post_message_to_page`: the request it hands to `send_rest_request`. -/
def post_message_to_page (cfg : FacebookAPI) (message : String) : RestRequest :=
  { method := "POST"
    endpoint := cfg.page_id ++ "/feed"
    headers := [("Content-Type", "application/json")]
    params := [("access_token", .str cfg.access_token)]
    json_body := some (.obj [("message", .str message)]) }

/-- `get_page_posts`: the request it hands to `send_rest_request`. -/
def get_page_posts (cfg : FacebookAPI) (limit : Int) : RestRequest :=
  { method := "GET"
    endpoint := cfg.page_id ++ "/posts"
    params := [("access_token", .str cfg.access_token), ("limit", .int limit)] }

/-- `get_single_post`: the request it hands to `send_rest_request`. -/
def get_single_post (cfg : FacebookAPI) (post_id : String) : RestRequest :=
  { method := "GET"
    endpoint := post_id
    params := [("access_token", .str cfg.access_token)] }

/-- `comment_on_post`: the request it hands to `send_rest_request`. -/
def comment_on_post (cfg : FacebookAPI) (post_id message : String) : RestRequest :=
  { method := "POST"
    endpoint := post_id ++ "/comments"
    params := [("message", .str message), ("access_token", .str cfg.access_token)] }

/-- `get_post_comments`: the request it hands to `send_rest_request`. -/
def get_post_comments (cfg : FacebookAPI) (post_id : String) (limit : Int) : RestRequest :=
  { method := "GET"
    endpoint := post_id ++ "/comments"
    params := [("access_token", .str cfg.access_token), ("limit", .int limit)] }

/-- `reply_to_comment`: the request it hands to `send_rest_request`. -/
def reply_to_comment (cfg : FacebookAPI) (comment_id message : String) : RestRequest :=
  { method := "POST"
    endpoint := comment_id ++ "/comments"
    params := [("message", .str message), ("access_token", .str cfg.access_token)] }

/-- `reply_to_comment_with_attachment`: the request it hands to
`send_rest_request` (credential travels in the form data, not params). -/
def reply_to_comment_with_attachment (cfg : FacebookAPI) (comment_id attachment_url : String) : RestRequest :=
  { method := "POST"
    endpoint := comment_id ++ "/comments"
    form := [("attachment_url", .str attachment_url), ("access_token", .str cfg.access_token)] }

/-- `update_comment`: the request it hands to `send_rest_request`
(credential travels in the form data, not params). -/
def update_comment (cfg : FacebookAPI) (comment_id message : String) : RestRequest :=
  { method := "POST"
    endpoint := comment_id
    form := [("message", .str message), ("access_token", .str cfg.access_token)] }

/-- `like_comment`: the request it hands to `send_rest_request`. -/
def like_comment (cfg : FacebookAPI) (comment_id : String) : RestRequest :=
  { method := "POST"
    endpoint := comment_id ++ "/likes"
    params := [("access_token", .str cfg.access_token)] }

/-- `get_reactions`: the request it hands to `send_rest_request`. -/
def get_reactions (cfg : FacebookAPI) (post_id : String) : RestRequest :=
  { method := "GET"
    endpoint := post_id ++ "/reactions"
    params := [("access_token", .str cfg.access_token)] }

/-- `share_facebook_post`: the request it hands to `send_rest_request`
before post-processing the response for the permalink. -/
def share_facebook_post (cfg : FacebookAPI) (post_id : String) : RestRequest :=
  { method := "GET"
    endpoint := post_id
    params := [("fields", .str "permalink_url"), ("access_token", .str cfg.access_token)] }

/-- `paging.next` as read by the `list_all_pages` loop:
`response.get("paging", {}).get("next")`, with Python truthiness
deciding whether the loop continues. -/
def nextPage (response : Json) : Json :=
  (((response.lookup "paging").getD (.obj [])).lookup "next").getD .null

/-- `response.get("data", [])` as consumed by `all_pages.extend`: absent
defaults to the empty list; a non-list value makes `extend` raise
(`TypeError`), which the source's `except` turns into an error envelope. -/
def pageData (response : Json) : Except String (List Json)  :=
  match (response.lookup "data").getD (.arr []) with
  | .arr xs => Except.ok xs
  | _ => Except.error "TypeError: data is not iterable"

/-- The `while True` loop of `list_all_pages`, consuming one oracle
response per iteration.  `none` means the finite oracle was exhausted
while the loop still wanted a further page (that run is outside the
model).  `some (.ok v)` is the loop's return value, `some (.error e)` a
raised exception the source's `except` converts. -/
def paginate : List Json → List Json → Option (Except String (List Json))
  | [], _ => none
  | response :: rest, all_pages =>
    if response.hasKey "error" then some (Except.ok [])
    else
      match pageData response with
      | .error e => some (Except.error e)
      | .ok ds =>
        let acc := all_pages ++ ds
        if pythonTruthy (nextPage response) then paginate rest acc
        else some (Except.ok acc)

/-- `list_all_pages`: the loop result (a JSON list of accumulated page
records, the empty list on an error page, or the `{"ok": False, ...}`
envelope when extraction raised).  `Json.null` marks runs the finite
oracle does not cover. -/
def list_all_pages (responses : List Json) : Json :=
  match paginate responses [] with
  | some (.ok v) => .arr v
  | some (.error e) => .obj [("ok", .bool false), ("error", .str e)]
  | none => .null

/-- The initial request of `list_all_pages`. -/
def list_all_pages_first_request (cfg : FacebookAPI) (limit : Int) : RestRequest :=
  { method := "GET"
    endpoint := "me/accounts"
    params := [("access_token", .str cfg.access_token), ("limit", .int limit)] }

/-- A pagination continuation request of `list_all_pages`: the loop
re-enters with `endpoint = next_page` and `params = {}`. -/
def continuationRequest (next : Json) : RestRequest :=
  { method := "GET"
    endpoint := match next with | .str s => s | _ => ""
    params := [] }

/-- The continuation requests `list_all_pages` issues after each oracle
response: one per response that has no error, iterable data and a
truthy `paging.next`. -/
def continuationRequests : List Json → List RestRequest
  | [] => []
  | response :: rest =>
    if response.hasKey "error" then []
    else
      match pageData response with
      | .error _ => []
      | .ok _ =>
        if pythonTruthy (nextPage response) then
          continuationRequest (nextPage response) :: continuationRequests rest
        else []

/-- Every request `list_all_pages` issues, in order. -/
def list_all_pages_requests (cfg : FacebookAPI) (limit : Int) (responses : List Json) :
    List RestRequest :=
  list_all_pages_first_request cfg limit :: continuationRequests responses

/-- The per-image upload request of `post_images_to_page`. -/
def photoUploadRequest (cfg : FacebookAPI) (image_url : String) : RestRequest :=
  { method := "POST"
    endpoint := cfg.page_id ++ "/photos"
    params :=
      [ ("access_token", .str cfg.access_token)
      , ("url", .str image_url)
      , ("published", .str "false") ] }

/-- The per-video upload request of `post_videos_to_page`. -/
def videoUploadRequest (cfg : FacebookAPI) (title video_url : String) : RestRequest :=
  { method := "POST"
    endpoint := cfg.page_id ++ "/videos"
    params :=
      [ ("access_token", .str cfg.access_token)
      , ("title", .str title)
      , ("file_url", .str video_url) ] }

/-- The aggregating `/feed` request shared by the batch upload
operations: caption plus `attached_media` built from the collected ids. -/
def feedRequest (cfg : FacebookAPI) (caption : String) (ids : List Json) : RestRequest :=
  { method := "POST"
    endpoint := cfg.page_id ++ "/feed"
    params := [("access_token", .str cfg.access_token)]
    json_body := some (.obj
      [ ("message", .str caption)
      , ("attached_media", .arr (ids.map fun i => .obj [("media_fbid", i)])) ]) }

/-- What one batch operation did: the upload requests it issued, the
aggregating feed request (when one was issued) and the returned value. -/
structure BatchTrace where
  uploads : List RestRequest
  feed : Option RestRequest
  result : Json

/-- The id collected from one upload response, skipping responses that
carry an `error` key (`image_ids.append(response.get("id"))`).  The
oracle returns the fields of the response object: `send_rest_request`
yields a dict on every path (errors are dicts, an empty body is `{}`),
so the batch loops only ever see dict-shaped responses and the
operations' `except` handlers stay unreachable. -/
def collectedId (response : List (String × Json)) : Option Json :=
  if (lookupField response "error").isSome then none
  else some ((lookupField response "id").getD .null)

/-- `post_images_to_page`: uploads every URL, keeps the ids of the
uploads whose response has no `error` key, then either reports total
failure or issues the aggregating feed post. -/
def post_images_to_page (cfg : FacebookAPI) (image_urls : List String) (caption : String)
    (send : RestRequest → List (String × Json)) : BatchTrace :=
  let uploads := image_urls.map (photoUploadRequest cfg)
  let image_ids := uploads.filterMap fun r => collectedId (send r)
  if image_ids.isEmpty then
    { uploads := uploads
      feed := none
      result := .obj [("error", .str "Failed to upload any images")] }
  else
    let fr := feedRequest cfg caption image_ids
    { uploads := uploads, feed := some fr, result := .obj (send fr) }

/-- `post_videos_to_page`: the video counterpart of
`post_images_to_page`. -/
def post_videos_to_page (cfg : FacebookAPI) (title caption : String) (video_urls : List String)
    (send : RestRequest → List (String × Json)) : BatchTrace :=
  let uploads := video_urls.map (videoUploadRequest cfg title)
  let video_ids := uploads.filterMap fun r => collectedId (send r)
  if video_ids.isEmpty then
    { uploads := uploads
      feed := none
      result := .obj [("error", .str "Failed to upload any videos")] }
  else
    let fr := feedRequest cfg caption video_ids
    { uploads := uploads, feed := some fr, result := .obj (send fr) }

/-- Outcome of the `requests.head` probe inside `get_mime_type` /
`download_file`: the `Content-Type` header (absent allowed), or a
raised `RequestException`. -/
inductive HeadOutcome where
  | ok (contentType : Option String)
  | exn

/-- Python truthiness of an optional string argument (`None` and `""`
are falsy). -/
def pyTruthyStr : Option String → Bool
  | some s => s != ""
  | none => false

/-- The fixed image allow-list of `get_mime_type`. -/
def imageTypes : List String := ["image/jpeg", "image/png", "image/gif", "image/webp"]

/-- The fixed document allow-list of `get_mime_type`. -/
def documentTypes : List String := ["application/pdf", "text/plain"]

/-- The fixed audio allow-list of `get_mime_type`. -/
def audioTypes : List String := ["audio/mpeg", "audio/wav"]

/-- The fixed video allow-list of `get_mime_type`. -/
def videoTypes : List String := ["video/mp4", "video/quicktime"]

/-- `detected_mime_type in <category list>` (a `None` detection is in no
list). -/
def inTypes (detected : Option String) (l : List String) : Bool :=
  match detected with
  | some s => l.contains s
  | none => false

/-- The classification ladder at the bottom of `get_mime_type`. -/
def classifyMime (detected : Option String) : Json :=
  if inTypes detected imageTypes then
    .obj [("file_type", .str "image"), ("mime", jsonOfOptStr detected)]
  else if inTypes detected documentTypes then
    .obj [("file_type", .str "document"), ("mime", jsonOfOptStr detected)]
  else if inTypes detected audioTypes then
    .obj [("file_type", .str "audio"), ("mime", jsonOfOptStr detected)]
  else if inTypes detected videoTypes then
    .obj [("file_type", .str "video"), ("mime", jsonOfOptStr detected)]
  else
    .obj [("file_type", .str "unknown"), ("mime", jsonOfOptStr detected)]

/-- `get_mime_type`: detection priority `file_path` > `url` >
`mime_type`.  `guess` is the result of `mimetypes.guess_type(file_path)`
(consulted only in the `file_path` branch); `probe` is the outcome of
`requests.head(url)` (consulted only in the `url` branch, where a
transport error returns `None`). -/
def get_mime_type (file_path url mime_type : Option String)
    (guess : Option String) (probe : HeadOutcome) : Option Json :=
  if pyTruthyStr file_path then some (classifyMime guess)
  else if pyTruthyStr url then
    match probe with
    | .ok ct => some (classifyMime ct)
    | .exn => none
  else some (classifyMime mime_type)

/-- `media_type` for one `post_media_to_page` entry:
`mime_info.get("file_type") if mime_info else None`, where `mime_info`
is the HEAD-probe classification of the entry's URL. -/
def mediaFileType (url : Option String) (probe : HeadOutcome) : Option Json :=
  match get_mime_type none url none none probe with
  | some info => info.lookup "file_type"
  | none => none

/-- The upload request `post_media_to_page` issues for one media entry,
or `none` when the entry is skipped (`continue`): `url` is the entry's
`media.get("url")`, `probe` the HEAD probe outcome for it. -/
def mediaUploadRequest (cfg : FacebookAPI) (url : Option String) (probe : HeadOutcome) :
    Option RestRequest :=
  match mediaFileType url probe with
  | some (.str s) =>
    if s = "video" then
      some { method := "POST"
             endpoint := cfg.page_id ++ "/videos"
             params :=
               [ ("access_token", .str cfg.access_token)
               , ("file_url", jsonOfOptStr url) ] }
    else if s = "image" then
      some { method := "POST"
             endpoint := cfg.page_id ++ "/photos"
             params :=
               [ ("access_token", .str cfg.access_token)
               , ("url", jsonOfOptStr url)
               , ("published", .str "false") ] }
    else none
  | _ => none

/-- `post_media_to_page`: classifies each entry's URL, skips entries
that are neither image nor video, uploads the rest, then either reports
that nothing was uploaded or issues the aggregating feed post. -/
def post_media_to_page (cfg : FacebookAPI) (caption : String)
    (media_urls : List (Option String × HeadOutcome))
    (send : RestRequest → List (String × Json)) : BatchTrace :=
  let uploads := media_urls.filterMap fun m => mediaUploadRequest cfg m.1 m.2
  let media_ids := uploads.filterMap fun r => collectedId (send r)
  if media_ids.isEmpty then
    { uploads := uploads
      feed := none
      result := .obj [("error", .str "No valid media uploaded")] }
  else
    let fr := feedRequest cfg caption media_ids
    { uploads := uploads, feed := some fr, result := .obj (send fr) }

/-- Outcome of the streaming `requests.get` inside `download_file`: a
raised exception, or a response with a status code whose
streaming/saving/URL-resolution step (`save`) either raises or yields
the storage collaborator's public URL for the written path. -/
inductive GetOutcome where
  | exn
  | resp (status : Nat) (save : String → Except Unit String)

/-- `content_type.split(";")[0]`: the prefix of the string before its
first `;` (Python's `split` always yields a non-empty list, so the
index-0 access is total). -/
def beforeSep (s : String) : String :=
  String.mk (s.data.takeWhile (fun c => c != ';'))

/-- `download_file`: HEAD-probe the `Content-Type`, derive an extension
(`guessExt` models `mimetypes.guess_extension`; `filename` the random
10-character name), and only then issue the GET.  Returns the pair
(whether the GET was issued, the value returned to the caller); every
raised exception ends in `none`. -/
def download_file (head : Except Unit (Option String))
    (guessExt : String → Option String) (filename : String)
    (get : GetOutcome) : Bool × Option String :=
  match head with
  | .error _ => (false, none)
  | .ok ctHeader =>
    let content_type := ctHeader.getD ""
    match guessExt (beforeSep content_type) with
    | none => (false, none)
    | some extension =>
      let output_path := "fb/" ++ filename ++ extension
      match get with
      | .exn => (true, none)
      | .resp status save =>
        if status = 200 then
          match save output_path with
          | .error _ => (true, none)
          | .ok publicUrl => (true, some publicUrl)
        else (true, none)

end FacebookAPI

open FacebookAPI

/-! ## Example payloads used by the witnesses -/

/-- A `changes`-shaped webhook payload (page feed comment event). -/
def changesPayload : Json :=
  .obj [("entry", .arr [.obj
    [ ("id", .str "P1")
    , ("changes", .arr [.obj [("value", .obj
        [ ("from", .obj [("id", .str "U1"), ("name", .str "Alice")])
        , ("item", .str "comment")
        , ("message", .str "hello") ])]])]])]

/-- A `messaging`-shaped webhook payload (Messenger text event). -/
def messagingPayload : Json :=
  .obj [("entry", .arr [.obj
    [ ("id", .str "P1")
    , ("messaging", .arr [.obj
        [ ("sender", .obj [("id", .str "U2")])
        , ("message", .obj [("text", .str "hi")]) ]])]])]

/-- A webhook payload whose first entry has an `id` but neither a
`changes` nor a `messaging` key. -/
def neitherPayload : Json :=
  .obj [("entry", .arr [.obj [("id", .str "P1")]])]

/-- The client configuration used by the witnesses. -/
def cfgEx : FacebookAPI :=
  { api_url := "https://graph.facebook.com/v20.0/"
  , app_secret := "SECRET"
  , app_id := "APP"
  , page_id := "PID"
  , access_token := "TOK"
  , verify_token := "T"
  , fields := none
  , timeout := 10 }

/-! ## C1 -/

/-- **C1.** For every webhook payload whose first entry carries a
well-formed `changes` event, `parse_inbound_message` returns the record
with `sender_id`/`sender_name` from `changes[0].value.from`,
`message_type` from `value["item"]` and `message` equal to Python's
`value.get("message") or value.get("reaction_type")`; and for every
payload whose first entry instead carries a `messaging` event, it
returns `message_type = "message"`, `message` from
`messaging[0].message.text` and `attachments` from
`messaging[0].message.attachments` (empty list when absent). -/
theorem parse_inbound_message_shapes :
    (∀ (request entries entry changes change0 change fromVal sid sname mtype page_id : Json)
       (mOpt rOpt : Option Json),
      getItem request "entry" = Except.ok entries →
      index0 entries = Except.ok entry →
      entry.hasKey "changes" = true →
      getItem entry "id" = Except.ok page_id →
      getItem entry "changes" = Except.ok changes →
      index0 changes = Except.ok change0 →
      getItem change0 "value" = Except.ok change →
      getItem change "from" = Except.ok fromVal →
      getItem fromVal "id" = Except.ok sid →
      getItem fromVal "name" = Except.ok sname →
      getItem change "item" = Except.ok mtype →
      pyGet change "message" = Except.ok mOpt →
      pyGet change "reaction_type" = Except.ok rOpt →
      parse_inbound_message request = .obj
        [ ("sender_name", sname)
        , ("sender_id", sid)
        , ("page_id", page_id)
        , ("message_type", mtype)
        , ("message", if pythonTruthy (mOpt.getD .null) then mOpt.getD .null
                      else rOpt.getD .null)
        , ("attachments", .arr [])
        , ("caption", .str "")
        , ("data", request)
        , ("parent_message_id", .str "") ])
    ∧
    (∀ (request entries entry messagingArr messaging sender sid msgObj page_id : Json)
       (tOpt aOpt : Option Json),
      getItem request "entry" = Except.ok entries →
      index0 entries = Except.ok entry →
      entry.hasKey "changes" = false →
      entry.hasKey "messaging" = true →
      getItem entry "id" = Except.ok page_id →
      getItem entry "messaging" = Except.ok messagingArr →
      index0 messagingArr = Except.ok messaging →
      getItem messaging "sender" = Except.ok sender →
      getItem sender "id" = Except.ok sid →
      getItem messaging "message" = Except.ok msgObj →
      pyGet msgObj "text" = Except.ok tOpt →
      pyGet msgObj "attachments" = Except.ok aOpt →
      parse_inbound_message request = .obj
        [ ("sender_name", .str "")
        , ("sender_id", sid)
        , ("page_id", page_id)
        , ("message_type", .str "message")
        , ("message", tOpt.getD .null)
        , ("attachments", aOpt.getD (.arr []))
        , ("caption", .str "")
        , ("data", request)
        , ("parent_message_id", .str "") ]) := by
  constructor
  · intro request entries entry changes change0 change fromVal sid sname mtype page_id
      mOpt rOpt h1 h2 h3 h4 h5 h6 h7 h8 h9 h10 h11 h12 h13
    cases hm : pythonTruthy (mOpt.getD Json.null) <;>
      simp [parse_inbound_message, parseInboundCore, h1, h2, h3, h4, h5, h6, h7, h8, h9,
        h10, h11, h12, h13, hm, bind, Except.bind, pure, Except.pure]
  · intro request entries entry messagingArr messaging sender sid msgObj page_id
      tOpt aOpt h1 h2 h3 h3b h4 h5 h6 h7 h8 h9 h10 h11
    simp [parse_inbound_message, parseInboundCore, h1, h2, h3, h3b, h4, h5, h6, h7, h8,
      h9, h10, h11, bind, Except.bind, pure, Except.pure]

/-- Witness for C1: both branches evaluated on concrete payloads. -/
theorem parse_inbound_message_shapes_witness :
    parse_inbound_message changesPayload = .obj
      [ ("sender_name", .str "Alice")
      , ("sender_id", .str "U1")
      , ("page_id", .str "P1")
      , ("message_type", .str "comment")
      , ("message", .str "hello")
      , ("attachments", .arr [])
      , ("caption", .str "")
      , ("data", changesPayload)
      , ("parent_message_id", .str "") ]
    ∧
    parse_inbound_message messagingPayload = .obj
      [ ("sender_name", .str "")
      , ("sender_id", .str "U2")
      , ("page_id", .str "P1")
      , ("message_type", .str "message")
      , ("message", .str "hi")
      , ("attachments", .arr [])
      , ("caption", .str "")
      , ("data", messagingPayload)
      , ("parent_message_id", .str "") ] :=
  ⟨parse_inbound_message_shapes.1 changesPayload _ _ _ _ _ _ _ _ _ _ _ _
      rfl rfl rfl rfl rfl rfl rfl rfl rfl rfl rfl rfl rfl,
   parse_inbound_message_shapes.2 messagingPayload _ _ _ _ _ _ _ _ _ _
      rfl rfl rfl rfl rfl rfl rfl rfl rfl rfl rfl rfl⟩

/-! ## C2 -/

/-- **C2, counterexample.** A payload whose first entry has neither a
`changes` nor a `messaging` key does *not* produce an error envelope:
`parse_inbound_message` returns the normalized record (here with its
`sender_id` field present and empty) and no `ok` key at all. -/
theorem parse_inbound_message_no_branch_not_error :
    (parse_inbound_message neitherPayload).lookup "ok" = none
    ∧ (parse_inbound_message neitherPayload).lookup "sender_id" = some (.str "")
    ∧ (parse_inbound_message neitherPayload).lookup "page_id" = some (.str "P1") := by
  refine ⟨rfl, rfl, rfl⟩

/-- **C2, amended.** When the first entry has an `id` key but neither
`changes` nor `messaging`, `parse_inbound_message` returns the
normalized record with all extraction fields at their empty defaults
(no error envelope); the `{"ok": False, "error": ...}` envelope is
produced exactly when the extraction body raises. -/
theorem parse_inbound_message_missing_shape_amended :
    (∀ (request entries entry page_id : Json),
      getItem request "entry" = Except.ok entries →
      index0 entries = Except.ok entry →
      entry.hasKey "changes" = false →
      entry.hasKey "messaging" = false →
      getItem entry "id" = Except.ok page_id →
      parse_inbound_message request = .obj
        [ ("sender_name", .str "")
        , ("sender_id", .str "")
        , ("page_id", page_id)
        , ("message_type", .str "")
        , ("message", .str "")
        , ("attachments", .arr [])
        , ("caption", .str "")
        , ("data", request)
        , ("parent_message_id", .str "") ])
    ∧
    (∀ (request : Json) (e : String),
      parseInboundCore request = Except.error e →
      parse_inbound_message request = .obj [("ok", .bool false), ("error", .str e)]) := by
  constructor
  · intro request entries entry page_id h1 h2 h3 h3b h4
    simp [parse_inbound_message, parseInboundCore, h1, h2, h3, h3b, h4,
      bind, Except.bind, pure, Except.pure]
  · intro request e h
    simp [parse_inbound_message, h]

/-- Witness for the amended C2: the concrete shapeless payload and a
concrete raising payload. -/
theorem parse_inbound_message_missing_shape_amended_witness :
    parse_inbound_message neitherPayload = .obj
      [ ("sender_name", .str "")
      , ("sender_id", .str "")
      , ("page_id", .str "P1")
      , ("message_type", .str "")
      , ("message", .str "")
      , ("attachments", .arr [])
      , ("caption", .str "")
      , ("data", neitherPayload)
      , ("parent_message_id", .str "") ]
    ∧
    parse_inbound_message (.obj []) = .obj
      [("ok", .bool false), ("error", .str "KeyError: entry")] :=
  ⟨parse_inbound_message_missing_shape_amended.1 neitherPayload _ _ _
      rfl rfl rfl rfl rfl,
   parse_inbound_message_missing_shape_amended.2 (.obj []) "KeyError: entry" rfl⟩

/-! ## C3 -/

/-- **C3.** `send_rest_request` never raises: it maps every transport
outcome to a returned dict — the timeout envelope with the configured
timeout interpolated, the `{error, details}` envelope for any other
transport/HTTP error, the decoded body on success (the empty dict for
an empty body), and a bare `{error}` envelope for an unexpected
internal failure. -/
theorem send_rest_request_spec (cfg : FacebookAPI) (endpoint : String)
    (transport : String → RequestOutcome) :
    (transport (cfg.buildUrl endpoint) = .timeout →
      cfg.send_rest_request endpoint transport =
        .obj [("error", .str ("Timeout after " ++ toString cfg.timeout ++ " seconds"))])
    ∧ (∀ msg resp, transport (cfg.buildUrl endpoint) = .requestError msg resp →
      cfg.send_rest_request endpoint transport =
        .obj [("error", .str msg), ("details", errorDetails resp)])
    ∧ (∀ body, transport (cfg.buildUrl endpoint) = .success (some body) →
      cfg.send_rest_request endpoint transport = body)
    ∧ (transport (cfg.buildUrl endpoint) = .success none →
      cfg.send_rest_request endpoint transport = .obj [])
    ∧ (∀ msg, transport (cfg.buildUrl endpoint) = .unexpected msg →
      cfg.send_rest_request endpoint transport = .obj [("error", .str msg)]) := by
  refine ⟨?_, ?_, ?_, ?_, ?_⟩ <;> intros <;> simp_all [FacebookAPI.send_rest_request]

/-- Witness for C3: a timed-out call, a failed call and an empty-body
success, each on a concrete configuration. -/
theorem send_rest_request_spec_witness :
    cfgEx.send_rest_request "me" (fun _ => .timeout) =
      .obj [("error", .str "Timeout after 10 seconds")]
    ∧ cfgEx.send_rest_request "me" (fun _ => .requestError "boom" none) =
      .obj [("error", .str "boom"), ("details", .null)]
    ∧ cfgEx.send_rest_request "me" (fun _ => .success none) = .obj [] :=
  ⟨(send_rest_request_spec cfgEx "me" (fun _ => .timeout)).1 rfl,
   (send_rest_request_spec cfgEx "me" (fun _ => .requestError "boom" none)).2.1 "boom" none rfl,
   (send_rest_request_spec cfgEx "me" (fun _ => .success none)).2.2.2.1 rfl⟩

/-! ## C4 -/

/-- **C4.** `parse_verification_request` returns the `hub.challenge`
value (empty string when absent) exactly when `hub.mode` is
`"subscribe"` and `hub.verify_token` equals the configured token, and
the 403 rejection dict in every other case; being a total function of
the request it never raises. -/
theorem parse_verification_request_spec (cfg : FacebookAPI) (request : Json) :
    (verificationOk cfg request = true ↔
      (request.lookup "hub.mode" = some (.str "subscribe")
       ∧ request.lookup "hub.verify_token" = some (.str cfg.verify_token)))
    ∧ (verificationOk cfg request = true →
      cfg.parse_verification_request request = (request.lookup "hub.challenge").getD (.str ""))
    ∧ (verificationOk cfg request = false →
      cfg.parse_verification_request request =
        .obj [("message", .str "Invalid token or mode"), ("code", .int 403)]) := by
  refine ⟨?_, ?_, ?_⟩
  · cases hv : request.lookup "hub.verify_token" with
    | none => simp [verificationOk, hv]
    | some v =>
      cases hm : request.lookup "hub.mode" with
      | none => cases v <;> simp [verificationOk, hv, hm]
      | some m => cases v <;> cases m <;> simp [verificationOk, hv, hm] <;> aesop
  · intro h; simp [FacebookAPI.parse_verification_request, h]
  · intro h; simp [FacebookAPI.parse_verification_request, h]

/-- The verification request of the spec's example handshake. -/
def verificationRequestEx : Json :=
  .obj [ ("hub.mode", .str "subscribe")
       , ("hub.verify_token", .str "T")
       , ("hub.challenge", .str "123") ]

/-- Witness for C4: the spec's example handshake with the matching and
the mismatched configured token. -/
theorem parse_verification_request_spec_witness :
    cfgEx.parse_verification_request verificationRequestEx = .str "123"
    ∧ FacebookAPI.parse_verification_request
        { cfgEx with verify_token := "WRONG" } verificationRequestEx =
      .obj [("message", .str "Invalid token or mode"), ("code", .int 403)] :=
  ⟨(parse_verification_request_spec cfgEx verificationRequestEx).2.1 rfl,
   (parse_verification_request_spec { cfgEx with verify_token := "WRONG" }
      verificationRequestEx).2.2 rfl⟩

/-! ## C5 -/

/-- `paginate` over a prefix of error-free pages that all carry a truthy
`paging.next` just accumulates their data lists in order. -/
theorem paginate_accum (ps : List (Json × List Json)) (rest : List Json) (acc : List Json)
    (h : ∀ p ∈ ps, p.1.hasKey "error" = false ∧ pageData p.1 = Except.ok p.2
         ∧ pythonTruthy (nextPage p.1) = true) :
    paginate (ps.map Prod.fst ++ rest) acc = paginate rest (acc ++ (ps.map Prod.snd).flatten) := by
  induction ps generalizing acc with
  | nil => simp
  | cons p ps ih =>
    obtain ⟨h1, h2, h3⟩ := h p (List.mem_cons_self p ps)
    simp only [List.map_cons, List.cons_append, paginate, h1, h2, h3, if_true, if_false,
      Bool.false_eq_true, List.flatten_cons, List.append_eq]
    rw [ih _ (fun q hq => h q (List.mem_cons_of_mem p hq))]
    simp [List.append_assoc]

/-- **C5.** `list_all_pages` follows `paging.next` until it is absent
and returns the concatenation of every page's `data` list in original
order; as soon as any page's response carries an `error` key the whole
call returns the empty list, discarding everything accumulated so far. -/
theorem list_all_pages_spec :
    (∀ (ps : List (Json × List Json)) (last : Json) (dsLast : List Json),
      (∀ p ∈ ps, p.1.hasKey "error" = false ∧ pageData p.1 = Except.ok p.2
        ∧ pythonTruthy (nextPage p.1) = true) →
      last.hasKey "error" = false →
      pageData last = Except.ok dsLast →
      pythonTruthy (nextPage last) = false →
      list_all_pages (ps.map Prod.fst ++ [last]) = .arr ((ps.map Prod.snd).flatten ++ dsLast))
    ∧
    (∀ (ps : List (Json × List Json)) (err : Json) (rest : List Json),
      (∀ p ∈ ps, p.1.hasKey "error" = false ∧ pageData p.1 = Except.ok p.2
        ∧ pythonTruthy (nextPage p.1) = true) →
      err.hasKey "error" = true →
      list_all_pages (ps.map Prod.fst ++ err :: rest) = .arr []) := by
  constructor
  · intro ps last dsLast h h1 h2 h3
    unfold list_all_pages
    rw [paginate_accum ps [last] [] h]
    simp [paginate, h1, h2, h3]
  · intro ps err rest h h1
    unfold list_all_pages
    rw [paginate_accum ps (err :: rest) [] h]
    simp [paginate, h1]

/-- A first page carrying two records and a `paging.next` URL. -/
def pageRespEx1 : Json :=
  .obj [ ("data", .arr [.str "a", .str "b"])
       , ("paging", .obj [("next", .str "https://next2")]) ]

/-- A final page carrying one record and no `paging.next`. -/
def pageRespEx2 : Json := .obj [("data", .arr [.str "c"])]

/-- A page response carrying an `error` key. -/
def pageRespErr : Json := .obj [("error", .obj [("message", .str "expired")])]

/-- Witness for C5: a two-page run concatenates in order, and an error
on the second page discards the first page's records. -/
theorem list_all_pages_spec_witness :
    list_all_pages [pageRespEx1, pageRespEx2] = .arr [.str "a", .str "b", .str "c"]
    ∧ list_all_pages [pageRespEx1, pageRespErr] = .arr [] := by
  constructor
  · exact list_all_pages_spec.1 [(pageRespEx1, [.str "a", .str "b"])] pageRespEx2 [.str "c"]
      (by intro p hp; simp only [List.mem_singleton] at hp; subst hp; exact ⟨rfl, rfl, rfl⟩)
      rfl rfl rfl
  · exact list_all_pages_spec.2 [(pageRespEx1, [.str "a", .str "b"])] pageRespErr []
      (by intro p hp; simp only [List.mem_singleton] at hp; subst hp; exact ⟨rfl, rfl, rfl⟩)
      rfl

/-! ## C6 -/

/-- `filterMap` of a skip-or-keep step is `map` over `filter`. -/
theorem filterMap_ite_none {α β : Type} (q : α → Bool) (g : α → β) (l : List α) :
    l.filterMap (fun a => if q a then none else some (g a)) =
      (l.filter (fun a => !q a)).map g := by
  induction l with
  | nil => rfl
  | cons a l ih => by_cases h : q a <;> simp [h, ih]

/-- **C6.** `post_images_to_page` uploads every URL (a failing upload is
skipped, the remaining uploads proceed), the collected media ids are
exactly those of the uploads whose response has no `error` key, in
order; when any id was collected the aggregating feed post is issued
with exactly those ids, and when none was the call returns
`{"error": "Failed to upload any images"}` without issuing the feed
post. -/
theorem post_images_to_page_spec (cfg : FacebookAPI) (image_urls : List String)
    (caption : String) (send : RestRequest → List (String × Json)) :
    (post_images_to_page cfg image_urls caption send).uploads =
      image_urls.map (photoUploadRequest cfg)
    ∧ ((image_urls.map (photoUploadRequest cfg)).filterMap fun r => collectedId (send r)) =
        ((image_urls.map (photoUploadRequest cfg)).filter
          (fun r => !(lookupField (send r) "error").isSome)).map
          (fun r => (lookupField (send r) "id").getD .null)
    ∧ (((image_urls.map (photoUploadRequest cfg)).filterMap fun r => collectedId (send r)) = [] →
        (post_images_to_page cfg image_urls caption send).feed = none
        ∧ (post_images_to_page cfg image_urls caption send).result =
            .obj [("error", .str "Failed to upload any images")])
    ∧ (∀ ids, ((image_urls.map (photoUploadRequest cfg)).filterMap fun r => collectedId (send r)) = ids →
        ids ≠ [] →
        (post_images_to_page cfg image_urls caption send).feed =
          some (feedRequest cfg caption ids)
        ∧ (post_images_to_page cfg image_urls caption send).result =
            .obj (send (feedRequest cfg caption ids))) := by
  refine ⟨?_, ?_, ?_, ?_⟩
  · cases he : ((image_urls.map (photoUploadRequest cfg)).filterMap fun r => collectedId (send r)).isEmpty <;>
      simp [post_images_to_page, he, -List.filterMap_map]
  · simp only [collectedId]
    exact filterMap_ite_none _ _ _
  · intro h
    constructor <;> simp [post_images_to_page, h]
  · intro ids hids h
    have he : ids.isEmpty = false := by
      cases ids with
      | nil => exact absurd rfl h
      | cons a l => rfl
    constructor <;> simp [post_images_to_page, hids, he]

/-- A batch-upload oracle: the upload for URL `u2` fails, every other
photo upload succeeds with id `id-<url>`, and the feed post returns
`{"id": "FEEDPOST"}`. -/
def sendBatchEx : RestRequest → List (String × Json) := fun r =>
  match lookupField r.params "url" with
  | some (.str "u2") => [("error", .str "boom")]
  | some (.str u) => [("id", .str ("id-" ++ u))]
  | _ => [("id", .str "FEEDPOST")]

/-- A batch-upload oracle under which every upload fails. -/
def sendAllFailEx : RestRequest → List (String × Json) := fun _ =>
  [("error", .str "boom")]

/-- Witness for C6: three URLs with one failing upload still produce the
feed post carrying the two successful ids in order; when all three fail
the call returns the total-failure envelope and no feed post. -/
theorem post_images_to_page_spec_witness :
    (post_images_to_page cfgEx ["u1", "u2", "u3"] "cap" sendBatchEx).feed =
      some (feedRequest cfgEx "cap" [.str "id-u1", .str "id-u3"])
    ∧ (post_images_to_page cfgEx ["u1", "u2", "u3"] "cap" sendBatchEx).result =
      .obj [("id", .str "FEEDPOST")]
    ∧ (post_images_to_page cfgEx ["u1", "u2", "u3"] "cap" sendAllFailEx).feed = none
    ∧ (post_images_to_page cfgEx ["u1", "u2", "u3"] "cap" sendAllFailEx).result =
      .obj [("error", .str "Failed to upload any images")] :=
  have h := post_images_to_page_spec cfgEx ["u1", "u2", "u3"] "cap" sendBatchEx
  have hf := post_images_to_page_spec cfgEx ["u1", "u2", "u3"] "cap" sendAllFailEx
  ⟨(h.2.2.2 [.str "id-u1", .str "id-u3"] rfl (by simp)).1,
   (h.2.2.2 [.str "id-u1", .str "id-u3"] rfl (by simp)).2,
   (hf.2.2.1 rfl).1,
   (hf.2.2.1 rfl).2⟩

/-! ## C7 -/

/-- **C7.** `get_mime_type` classifies the detected MIME string against
the fixed per-category allow-lists (`image/png` is an image,
`application/zip` falls through to `unknown`), and it returns `none`
exactly when the `url` branch is taken and the HEAD probe raises a
transport error — every other case yields a classification dict. -/
theorem get_mime_type_spec :
    (∀ probe, get_mime_type none none (some "image/png") none probe =
      some (.obj [("file_type", .str "image"), ("mime", .str "image/png")]))
    ∧ (∀ probe, get_mime_type none none (some "application/zip") none probe =
      some (.obj [("file_type", .str "unknown"), ("mime", .str "application/zip")]))
    ∧ (∀ (file_path url mime_type guess : Option String) (probe : HeadOutcome),
        get_mime_type file_path url mime_type guess probe = none ↔
          (pyTruthyStr file_path = false ∧ pyTruthyStr url = true
           ∧ probe = HeadOutcome.exn)) := by
  refine ⟨fun probe => rfl, fun probe => rfl, ?_⟩
  intro file_path url mime_type guess probe
  by_cases h1 : pyTruthyStr file_path <;> by_cases h2 : pyTruthyStr url <;>
    cases probe <;> simp [get_mime_type, h1, h2]

/-- Witness for C7: a URL probe that raises yields `none`. -/
theorem get_mime_type_spec_witness :
    get_mime_type none (some "https://x") none none .exn = none :=
  (get_mime_type_spec.2.2 none (some "https://x") none none .exn).mpr ⟨rfl, rfl, rfl⟩

/-! ## C8 -/

/-- **C8.** `download_file` returns null immediately — without issuing
the download GET — when no extension can be derived from the probed
`Content-Type` (and likewise when the HEAD probe itself raises), and
every exception path (HEAD raise, GET raise, failing stream/save) as
well as a non-200 download status ends in null, so callers cannot
distinguish the failure cause. -/
theorem download_file_spec :
    (∀ (guessExt : String → Option String) (filename : String) (get : GetOutcome),
      download_file (Except.error ()) guessExt filename get = (false, none))
    ∧ (∀ (ct : Option String) (guessExt : String → Option String) (filename : String)
        (get : GetOutcome),
        guessExt (beforeSep (ct.getD "")) = none →
        download_file (Except.ok ct) guessExt filename get = (false, none))
    ∧ (∀ (head : Except Unit (Option String)) (guessExt : String → Option String)
        (filename : String),
        (download_file head guessExt filename .exn).2 = none)
    ∧ (∀ (head : Except Unit (Option String)) (guessExt : String → Option String)
        (filename : String) (status : Nat) (save : String → Except Unit String),
        status ≠ 200 →
        (download_file head guessExt filename (.resp status save)).2 = none)
    ∧ (∀ (head : Except Unit (Option String)) (guessExt : String → Option String)
        (filename : String) (status : Nat) (save : String → Except Unit String),
        (∀ p, save p = Except.error ()) →
        (download_file head guessExt filename (.resp status save)).2 = none) := by
  refine ⟨fun _ _ _ => rfl, ?_, ?_, ?_, ?_⟩
  · intro ct guessExt filename get h
    simp only [download_file, h]
  · intro head guessExt filename
    cases head with
    | error e => rfl
    | ok ct =>
      simp only [download_file]
      cases hg : guessExt (beforeSep (ct.getD "")) <;> rfl
  · intro head guessExt filename status save h
    cases head with
    | error e => rfl
    | ok ct =>
      simp only [download_file]
      cases hg : guessExt (beforeSep (ct.getD "")) <;>
        simp [h]
  · intro head guessExt filename status save h
    cases head with
    | error e => rfl
    | ok ct =>
      simp only [download_file]
      cases hg : guessExt (beforeSep (ct.getD "")) <;>
        by_cases hs : status = 200 <;> simp [hs, h]

/-- An extension-guesser that only knows `image/png`. -/
def pngExt : String → Option String := fun s =>
  if s = "image/png" then some ".png" else none

/-- Witness for C8: no derivable extension means no GET and a null
result; a raising GET, a 404, and a failing save each yield null. -/
theorem download_file_spec_witness :
    download_file (Except.ok (some "application/x-foo")) pngExt "abcdefghij" .exn =
      (false, none)
    ∧ (download_file (Except.ok (some "image/png")) pngExt "abcdefghij" .exn).2 = none
    ∧ (download_file (Except.ok (some "image/png")) pngExt "abcdefghij"
        (.resp 404 (fun p => Except.ok ("https://cdn/" ++ p)))).2 = none
    ∧ (download_file (Except.ok (some "image/png")) pngExt "abcdefghij"
        (.resp 200 (fun _ => Except.error ()))).2 = none :=
  ⟨download_file_spec.2.1 (some "application/x-foo") pngExt "abcdefghij" .exn (by decide),
   download_file_spec.2.2.1 (Except.ok (some "image/png")) pngExt "abcdefghij",
   download_file_spec.2.2.2.1 (Except.ok (some "image/png")) pngExt "abcdefghij" 404
     (fun p => Except.ok ("https://cdn/" ++ p)) (by decide),
   download_file_spec.2.2.2.2 (Except.ok (some "image/png")) pngExt "abcdefghij" 200
     (fun _ => Except.error ()) (fun p => rfl)⟩

/-! ## C9 -/

/-- The credential values a request explicitly carries: every
`access_token` entry among its query params and form data. -/
def credentialEntries (r : RestRequest) : List Json :=
  ((r.params ++ r.form).filter (fun kv => decide (kv.1 = "access_token"))).map (fun kv => kv.2)

/-- A first pagination response whose `paging.next` forces a
continuation request. -/
def nextPageResp : Json :=
  .obj [ ("data", .arr [])
       , ("paging", .obj [("next", .str "https://next/accounts?after=X")]) ]

/-- **C9, counterexample.** Not every outbound `list_all_pages` request
carries the page-level `access_token`: the initial request does, but the
pagination continuation request is issued with empty params
(`params = {}` in the loop), so it carries no client-attached
credential at all. -/
theorem list_all_pages_continuation_no_credential :
    (list_all_pages_requests cfgEx 100 [nextPageResp]).map credentialEntries =
      [[.str "TOK"], []] := by rfl

/-- Every pagination continuation request carries no client-attached
credential. -/
theorem mem_continuationRequests_credential (rs : List Json) (r : RestRequest)
    (h : r ∈ continuationRequests rs) : credentialEntries r = [] := by
  induction rs with
  | nil => simp [continuationRequests] at h
  | cons resp rest ih =>
    unfold continuationRequests at h
    split at h
    · simp at h
    · split at h
      · simp at h
      · split at h
        · rcases List.mem_cons.1 h with hr | hr
          · subst hr; rfl
          · exact ih hr
        · simp at h

/-- Every upload request `post_media_to_page` actually issues carries
exactly the page-level token. -/
theorem mediaUploadRequest_credential (cfg : FacebookAPI) (u : Option String)
    (p : HeadOutcome) (r : RestRequest) (h : mediaUploadRequest cfg u p = some r) :
    credentialEntries r = [.str cfg.access_token] := by
  unfold mediaUploadRequest at h
  split at h
  · split at h
    · injection h with hr; subst hr; rfl
    · split at h
      · injection h with hr; subst hr; rfl
      · cases h
  · cases h

/-- **C9, amended.** `register_session` carries exactly the combined
app-level token `app_id|app_secret`; every other outbound operation
attaches exactly the page-level `access_token` to every request it
constructs — except that `list_all_pages` attaches it only to its
initial request, its pagination continuation requests being issued to
the server-provided `paging.next` URL with no client-attached
credential; no operation carries both credentials. -/
theorem outbound_credentials_amended (cfg : FacebookAPI) :
    (∀ u, credentialEntries (register_session cfg u) =
      [.str (cfg.app_id ++ "|" ++ cfg.app_secret)])
    ∧ (∀ a b, credentialEntries (send_text_message cfg a b) = [.str cfg.access_token])
    ∧ (∀ a b c, credentialEntries (send_media cfg a b c) = [.str cfg.access_token])
    ∧ (∀ m, credentialEntries (post_message_to_page cfg m) = [.str cfg.access_token])
    ∧ (∀ p m, credentialEntries (comment_on_post cfg p m) = [.str cfg.access_token])
    ∧ (∀ c m, credentialEntries (reply_to_comment cfg c m) = [.str cfg.access_token])
    ∧ (∀ c u, credentialEntries (reply_to_comment_with_attachment cfg c u) =
      [.str cfg.access_token])
    ∧ (∀ c m, credentialEntries (update_comment cfg c m) = [.str cfg.access_token])
    ∧ (∀ c, credentialEntries (like_comment cfg c) = [.str cfg.access_token])
    ∧ (∀ f, credentialEntries (get_user_info cfg f) = [.str cfg.access_token])
    ∧ (∀ f, credentialEntries (get_page_details cfg f) = [.str cfg.access_token])
    ∧ (∀ l, credentialEntries (get_page_posts cfg l) = [.str cfg.access_token])
    ∧ (∀ p, credentialEntries (get_single_post cfg p) = [.str cfg.access_token])
    ∧ (∀ p l, credentialEntries (get_post_comments cfg p l) = [.str cfg.access_token])
    ∧ (∀ p, credentialEntries (get_reactions cfg p) = [.str cfg.access_token])
    ∧ (∀ p, credentialEntries (share_facebook_post cfg p) = [.str cfg.access_token])
    ∧ (∀ l, credentialEntries (list_all_pages_first_request cfg l) = [.str cfg.access_token])
    ∧ (∀ rs r, r ∈ continuationRequests rs → credentialEntries r = [])
    ∧ (∀ urls caption send r, r ∈ (post_images_to_page cfg urls caption send).uploads →
        credentialEntries r = [.str cfg.access_token])
    ∧ (∀ urls caption send fr, (post_images_to_page cfg urls caption send).feed = some fr →
        credentialEntries fr = [.str cfg.access_token])
    ∧ (∀ title caption urls send r, r ∈ (post_videos_to_page cfg title caption urls send).uploads →
        credentialEntries r = [.str cfg.access_token])
    ∧ (∀ title caption urls send fr,
        (post_videos_to_page cfg title caption urls send).feed = some fr →
        credentialEntries fr = [.str cfg.access_token])
    ∧ (∀ caption items send r, r ∈ (post_media_to_page cfg caption items send).uploads →
        credentialEntries r = [.str cfg.access_token])
    ∧ (∀ caption items send fr, (post_media_to_page cfg caption items send).feed = some fr →
        credentialEntries fr = [.str cfg.access_token]) := by
  refine ⟨fun u => rfl, fun a b => rfl, fun a b c => rfl, fun m => rfl, fun p m => rfl,
    fun c m => rfl, fun c u => rfl, fun c m => rfl, fun c => rfl, fun f => rfl, fun f => rfl,
    fun l => rfl, fun p => rfl, fun p l => rfl, fun p => rfl, fun p => rfl, fun l => rfl,
    mem_continuationRequests_credential, ?_, ?_, ?_, ?_, ?_, ?_⟩
  · intro urls caption send r hr
    have : (post_images_to_page cfg urls caption send).uploads =
        urls.map (photoUploadRequest cfg) := by
      cases he : ((urls.map (photoUploadRequest cfg)).filterMap fun q => collectedId (send q)).isEmpty <;>
        simp [post_images_to_page, he, -List.filterMap_map]
    rw [this] at hr
    rcases List.mem_map.1 hr with ⟨u, _, rfl⟩
    rfl
  · intro urls caption send fr hfr
    unfold post_images_to_page at hfr
    dsimp only at hfr
    split at hfr
    · cases hfr
    · injection hfr with h; subst h; rfl
  · intro title caption urls send r hr
    have : (post_videos_to_page cfg title caption urls send).uploads =
        urls.map (videoUploadRequest cfg title) := by
      cases he : ((urls.map (videoUploadRequest cfg title)).filterMap fun q => collectedId (send q)).isEmpty <;>
        simp [post_videos_to_page, he, -List.filterMap_map]
    rw [this] at hr
    rcases List.mem_map.1 hr with ⟨u, _, rfl⟩
    rfl
  · intro title caption urls send fr hfr
    unfold post_videos_to_page at hfr
    dsimp only at hfr
    split at hfr
    · cases hfr
    · injection hfr with h; subst h; rfl
  · intro caption items send r hr
    have : (post_media_to_page cfg caption items send).uploads =
        items.filterMap fun m => mediaUploadRequest cfg m.1 m.2 := by
      cases he : ((items.filterMap fun m => mediaUploadRequest cfg m.1 m.2).filterMap
          fun q => collectedId (send q)).isEmpty <;>
        simp [post_media_to_page, he, -List.filterMap_map]
    rw [this] at hr
    rcases List.mem_filterMap.1 hr with ⟨m, _, hm⟩
    exact mediaUploadRequest_credential cfg m.1 m.2 r hm
  · intro caption items send fr hfr
    unfold post_media_to_page at hfr
    dsimp only at hfr
    split at hfr
    · cases hfr
    · injection hfr with h; subst h; rfl

/-- Witness for the amended C9: concrete requests of four different
kinds with their credential entries evaluated. -/
theorem outbound_credentials_amended_witness :
    credentialEntries (register_session cfgEx "https://hook") = [.str "APP|SECRET"]
    ∧ credentialEntries (send_text_message cfgEx "U9" "hello") = [.str "TOK"]
    ∧ credentialEntries (continuationRequest (.str "https://next/accounts?after=X")) = []
    ∧ credentialEntries (feedRequest cfgEx "cap" [.str "id-u1", .str "id-u3"]) = [.str "TOK"] := by
  obtain ⟨hreg, hstm, _, _, _, _, _, _, _, _, _, _, _, _, _, _, _, hcont, _, hfeed, _, _, _, _⟩ :=
    outbound_credentials_amended cfgEx
  refine ⟨hreg "https://hook", hstm "U9" "hello", ?_, ?_⟩
  · exact hcont [nextPageResp] _ (List.mem_singleton.mpr rfl)
  · exact hfeed ["u1", "u2", "u3"] "cap" sendBatchEx _ rfl

/-! ## C10 -/

/-- **C10.** A `post_media_to_page` entry is skipped — no upload request
is issued for it — exactly when its URL's classification is neither
`image` nor `video` (including a failed probe); the issued uploads are
precisely those of the non-skipped entries; and when no id is collected
(every entry skipped or failed) the call returns
`{"error": "No valid media uploaded"}` without the aggregating feed
post. -/
theorem post_media_to_page_spec (cfg : FacebookAPI) (caption : String)
    (items : List (Option String × HeadOutcome)) (send : RestRequest → List (String × Json)) :
    (∀ (u : Option String) (p : HeadOutcome), mediaUploadRequest cfg u p = none ↔
      ¬(mediaFileType u p = some (.str "image")
        ∨ mediaFileType u p = some (.str "video")))
    ∧ (post_media_to_page cfg caption items send).uploads =
        items.filterMap (fun m => mediaUploadRequest cfg m.1 m.2)
    ∧ (((items.filterMap fun m => mediaUploadRequest cfg m.1 m.2).filterMap
          fun r => collectedId (send r)) = [] →
        (post_media_to_page cfg caption items send).feed = none
        ∧ (post_media_to_page cfg caption items send).result =
            .obj [("error", .str "No valid media uploaded")]) := by
  refine ⟨?_, ?_, ?_⟩
  · intro u p
    unfold mediaUploadRequest
    rcases hmt : mediaFileType u p with _ | j
    · simp [hmt]
    · cases j <;> simp
      rename_i s
      split_ifs with h1 h2 <;> simp [*]
  · cases he : ((items.filterMap fun m => mediaUploadRequest cfg m.1 m.2).filterMap
        fun q => collectedId (send q)).isEmpty <;>
      simp [post_media_to_page, he, -List.filterMap_map]
  · intro h
    constructor <;> simp [post_media_to_page, h]

/-- Media entries that are all skipped: a `application/zip`
classification, a failing probe, and an absent URL. -/
def mediaItemsEx : List (Option String × HeadOutcome) :=
  [(some "https://zip", .ok (some "application/zip")), (some "https://x", .exn), (none, .ok none)]

/-- Witness for C10: a zip URL is skipped, and a batch in which every
entry is skipped yields the no-valid-media envelope and no feed post. -/
theorem post_media_to_page_spec_witness :
    mediaUploadRequest cfgEx (some "https://zip") (.ok (some "application/zip")) = none
    ∧ (post_media_to_page cfgEx "cap" mediaItemsEx sendBatchEx).feed = none
    ∧ (post_media_to_page cfgEx "cap" mediaItemsEx sendBatchEx).result =
        .obj [("error", .str "No valid media uploaded")] :=
  have h := post_media_to_page_spec cfgEx "cap" mediaItemsEx sendBatchEx
  ⟨(h.1 (some "https://zip") (.ok (some "application/zip"))).mpr
    (by rw [show mediaFileType (some "https://zip") (HeadOutcome.ok (some "application/zip")) =
          some (Json.str "unknown") from rfl]
        simp),
   (h.2.2 rfl).1, (h.2.2 rfl).2⟩
